import Mathlib

/-!
Verification model of the countdown/statistics bot in `src/main.py`.

The core of the program is:
  * `read_data` — loads the persisted JSON document, recovering from a
    missing file or undecodable content by substituting and persisting a
    zero-value default (main.py lines 74-99);
  * `set_date` — the admin text handler that clears or sets the countdown
    target (main.py lines 109-152);
  * `send_daily_message` — the perpetual daily loop: one iteration per
    calendar day, branching on the persisted target date and either
    recording an event interval, sending a statistical forecast, or
    sending a countdown (main.py lines 261-362).

Modelling conventions.  Calendar dates are day numbers (`Int`): Python
`date` subtraction `(a - b).days` becomes integer subtraction and date
comparison becomes integer comparison.  A date string stored in the JSON
document either parses (`RawDate.valid d`) or makes `datetime.strptime`
raise `ValueError` (`RawDate.malformed`).  Floating-point arithmetic of
the forecast is idealized as exact rational/real arithmetic.  Each call
to `write_data` is recorded as an element of a `writes` list, in order;
an injected fault flag makes the write raise `OSError`.  Message sending
is recorded abstractly (which message variant, with which payload); an
injected fault makes the platform call raise, which the code catches in
an inner handler.
-/

/-- Exceptions of the Python program that the model distinguishes:
`TypeError` (indexing a non-dict JSON value), `ValueError` (a stored date
string that `datetime.strptime` rejects), `OSError` (a failed file
write). -/
inductive PyErr
  | typeError
  | valueError
  | osError
deriving DecidableEq, Repr

/-! ### JSON documents and `read_data` (main.py lines 68-99) -/

/-- A decoded JSON value, as produced by a successful `json.loads`. -/
inductive JValue
  | null
  | bool (b : Bool)
  | num (n : Int)
  | str (s : String)
  | arr (elems : List JValue)
  | obj (fields : List (String × JValue))

/-- Substring test: Python `pattern in s` for strings.  For a non-empty
pattern, `s.splitOn pattern` has more than one piece exactly when the
pattern occurs in `s`. -/
def strContains (s pattern : String) : Bool :=
  (s.splitOn pattern).length ≠ 1

/-- Python membership `key in data` on a decoded JSON value: key lookup on
a dict, element equality on a list, substring test on a string, and a
`TypeError` on values that are not iterable (null, booleans, numbers). -/
def pyContains : JValue → String → Except PyErr Bool
  | .obj fields, key => .ok (fields.any (fun kv => kv.1 == key))
  | .arr elems, key =>
      .ok (elems.any (fun v => match v with
        | .str s => s == key
        | _ => false))
  | .str s, key => .ok (strContains s key)
  | _, _ => .error .typeError

/-- Replace the value of `key` if present, otherwise append the binding —
the behaviour of Python dict assignment. -/
def setField (fields : List (String × JValue)) (key : String) (v : JValue) :
    List (String × JValue) :=
  if fields.any (fun kv => kv.1 == key) then
    fields.map (fun kv => if kv.1 == key then (key, v) else kv)
  else
    fields ++ [(key, v)]

/-- Python item assignment `data[key] = v`: succeeds on a dict, raises
`TypeError` on every other JSON value (list indices must be integers;
strings, numbers, booleans and null do not support item assignment). -/
def pySetItem : JValue → String → JValue → Except PyErr JValue
  | .obj fields, key, v => .ok (.obj (setField fields key v))
  | _, _, _ => .error .typeError

/-- The zero-value default document written by `read_data` on recovery:
`{"intervals": [], "last_event_date": null, "target_date": null}`. -/
def defaultData : JValue :=
  .obj [("intervals", .arr []), ("last_event_date", .null), ("target_date", .null)]

/-- One `if key not in data: data[key] = dflt` step of `read_data`. -/
def ensure_key (data : JValue) (key : String) (dflt : JValue) :
    Except PyErr JValue :=
  match pyContains data key with
  | .error e => .error e
  | .ok true => .ok data
  | .ok false => pySetItem data key dflt

/-- What the persisted file looks like when `read_data` opens it:
the file is absent (`open` raises `FileNotFoundError`), its content does
not decode (`json.loads` raises `JSONDecodeError`), or it decodes to some
JSON value. -/
inductive FileContent
  | missing
  | invalid
  | parsed (v : JValue)

/-- The value `read_data` returns together with the documents it persisted
via `write_data` while running, in order. -/
structure ReadResult where
  value : JValue
  writes : List JValue

/-- Translation of `read_data` (main.py lines 74-99).  A missing file and
undecodable content are caught and recovered by persisting and returning
the default document; a decoded value is put through the three
`ensure_key` steps, whose item assignments raise an uncaught `TypeError`
when the value is not a dict. -/
def read_data : FileContent → Except PyErr ReadResult
  | .missing => .ok ⟨defaultData, [defaultData]⟩
  | .invalid => .ok ⟨defaultData, [defaultData]⟩
  | .parsed v =>
    match ensure_key v "intervals" (.arr []) with
    | .error e => .error e
    | .ok v1 =>
      match ensure_key v1 "last_event_date" .null with
      | .error e => .error e
      | .ok v2 =>
        match ensure_key v2 "target_date" .null with
        | .error e => .error e
        | .ok v3 => .ok ⟨v3, []⟩

/-! ### Typed persisted state and the command handler -/

/-- A date string stored in the JSON document: either it parses to a day
number or `datetime.strptime` raises `ValueError` on it. -/
inductive RawDate
  | valid (day : Int)
  | malformed
deriving DecidableEq, Repr

/-- The persisted document at the schema level the handlers and the
scheduler use: `intervals` a list of integers, the two dates either null
or a stored string. -/
structure RawState where
  intervals : List Int
  last_event_date : Option RawDate
  target_date : Option RawDate
deriving DecidableEq, Repr

/-- Python `datetime.strptime(s, fmt).date()` on a stored date string. -/
def strptime_date : RawDate → Except PyErr Int
  | .valid d => .ok d
  | .malformed => .error .valueError

/-- The text an authorized admin sends to the `set_date` handler, after
the string-level dispatch of main.py lines 130-138: the literal (case
insensitive) "none", a text that `strptime(text, "%d-%m-%Y")` parses to a
date, or a text it rejects with `ValueError`. -/
inductive UserInput
  | none_
  | date (d : Int)
  | invalid

/-- The reply `set_date` sends back to the admin. -/
inductive Reply
  | resetDone
  | mustBeFuture
  | countdownSet (d : Int)
  | invalidFormat
deriving DecidableEq, Repr

/-- Translation of the state-mutating part of `set_date` (main.py lines
124-152), after the admin check.  `today` is `datetime.now(tz).date()`.
Returns the list of documents persisted by `write_data` (empty when the
input is rejected, so the persisted state is untouched) and the reply. -/
def set_date (today : Int) (input : UserInput) (data : RawState) :
    List RawState × Reply :=
  match input with
  | .none_ =>
      ([{ data with target_date := none, last_event_date := none }], .resetDone)
  | .date d =>
      if d < today then
        ([], .mustBeFuture)
      else
        ([{ data with target_date := some (RawDate.valid d),
                      last_event_date := none }], .countdownSet d)
  | .invalid => ([], .invalidFormat)

/-! ### The forecast computation (main.py lines 301-339) -/

/-- Python `int()` applied to a float: truncation toward zero. -/
def pyInt (q : ℚ) : Int := if 0 ≤ q then ⌊q⌋ else ⌈q⌉

/-- Mean interval, `n_days = sum(intervals) / len(intervals)`
(main.py line 306), with float division idealized as exact rational
division (`q / 0 = 0` in `ℚ`, matching nothing in the code: the code only
evaluates this with a non-empty list). -/
def n_days (intervals : List Int) : ℚ :=
  (intervals.sum : ℚ) / (intervals.length : ℚ)

/-- Rate parameter, `lambda_param = 1 / n_days if n_days != 0 else 0`
(main.py line 307). -/
def lambda_param (intervals : List Int) : ℚ :=
  if n_days intervals ≠ 0 then 1 / n_days intervals else 0

/-- `poisson_prob_at_least_one(lam, days) = 1 - exp(-lam * days)`
(main.py lines 315-316). -/
noncomputable def poisson_prob_at_least_one (lam days : ℝ) : ℝ :=
  1 - Real.exp (-lam * days)

/-- The five numbers embedded in the statistical message (main.py lines
319-332): `int(expected_time)` and the four probabilities, already in
percent. -/
structure StatNumbers where
  expected_time_int : Int
  days_prob : ℝ
  week_prob : ℝ
  month_prob : ℝ
  year_prob : ℝ

/-- The statistical message variant: the fixed "no historical data"
sentence, or the forecast sentence with its five embedded numbers. -/
inductive StatMessage
  | noData
  | forecast (numbers : StatNumbers)

/-- The statistical message computed by the Idle branch of the daily loop
(main.py lines 303-339) as a function of the recorded intervals. -/
noncomputable def statMessage (intervals : List Int) : StatMessage :=
  if intervals = [] then .noData
  else
    .forecast ⟨pyInt (n_days intervals),
      poisson_prob_at_least_one (lambda_param intervals) 1 * 100,
      poisson_prob_at_least_one (lambda_param intervals) 7 * 100,
      poisson_prob_at_least_one (lambda_param intervals) 30 * 100,
      poisson_prob_at_least_one (lambda_param intervals) 365 * 100⟩

/-- Reference forecast, written from the specification's Forecast Model
section: mean interval mu, rate 0 when mu is zero and 1/mu otherwise,
probabilities (1 - e^(-rate*d)) * 100 for d in {1, 7, 30, 365}, expected
time reported as the floor of mu, and the fixed no-data message on an
empty sequence. -/
noncomputable def specForecast (intervals : List Int) : StatMessage :=
  if intervals = [] then .noData
  else
    let mu : ℚ := (intervals.sum : ℚ) / (intervals.length : ℚ)
    let rate : ℚ := if mu = 0 then 0 else 1 / mu
    .forecast ⟨⌊mu⌋,
      (1 - Real.exp (-(rate : ℝ) * 1)) * 100,
      (1 - Real.exp (-(rate : ℝ) * 7)) * 100,
      (1 - Real.exp (-(rate : ℝ) * 30)) * 100,
      (1 - Real.exp (-(rate : ℝ) * 365)) * 100⟩

/-! ### The daily scheduler tick (main.py lines 261-362) -/

/-- The message the tick hands to `bot.send_message`, abstracted to its
variant and payload: the statistical message is determined by the
intervals (rendered by `statMessage`), the countdown message is
`str(max(0, days_left))`. -/
inductive TickMsg
  | statistical (intervals : List Int)
  | countdown (days : Int)
deriving DecidableEq, Repr

/-- The observable outcome of one tick body that did not raise: the
documents persisted by `write_data` in order, the final document, the
message handed to the platform (if the tick reached a send call), and
whether the platform delivered it (`false` when the send raised and the
inner handler caught and logged the error). -/
structure TickOk where
  writes : List RawState
  final : RawState
  sent : Option TickMsg
  delivered : Bool
deriving DecidableEq, Repr

/-- The environment of one tick: `today` after the midnight sleep, what
`read_data` produced (or raised), and the injected fault flags for
`write_data` and `bot.send_message`. -/
structure TickEnv where
  today : Int
  readResult : Except PyErr RawState
  writeFault : Bool
  sendFault : Bool

/-- Translation of the body of one `send_daily_message` iteration after
the midnight sleep (main.py lines 272-358), without the enclosing
`try/except`.  The stored target date is parsed only when it is set (line
276); when it equals `today` the Triggered branch runs: a same-day
`last_event_date` is logged and skipped, an earlier one appends
`today - last_event` to `intervals` and moves `last_event_date` to today
with a persisted write, a null one just moves `last_event_date` to today
with a persisted write, and in each sub-case a second statement then sets
`target_date` to null and persists again (lines 297-299).  With no target
the statistical message is sent; with a future target the countdown is
sent; both sends are wrapped in their own inner `try/except`. -/
def send_daily_message_body (env : TickEnv) : Except PyErr TickOk :=
  match env.readResult with
  | .error e => .error e
  | .ok data =>
    match data.target_date with
    | some rd =>
      match strptime_date rd with
      | .error e => .error e
      | .ok t =>
        if t = env.today then
          match data.last_event_date with
          | some lrd =>
            match strptime_date lrd with
            | .error e => .error e
            | .ok last_event =>
              if last_event = env.today then
                let data2 : RawState := { data with target_date := none }
                if env.writeFault then .error .osError
                else .ok ⟨[data2], data2, none, true⟩
              else
                let data1 : RawState :=
                  { data with
                      intervals := data.intervals ++ [env.today - last_event],
                      last_event_date := some (RawDate.valid env.today) }
                let data2 : RawState := { data1 with target_date := none }
                if env.writeFault then .error .osError
                else .ok ⟨[data1, data2], data2, none, true⟩
          | none =>
            let data1 : RawState :=
              { data with last_event_date := some (RawDate.valid env.today) }
            let data2 : RawState := { data1 with target_date := none }
            if env.writeFault then .error .osError
            else .ok ⟨[data1, data2], data2, none, true⟩
        else
          .ok ⟨[], data, some (.countdown (max 0 (t - env.today))), !env.sendFault⟩
    | none =>
      .ok ⟨[], data, some (.statistical data.intervals), !env.sendFault⟩

/-- The outcome of one loop iteration of `send_daily_message`: the body
completed, or an exception propagated to the `except` at the top of the
loop body, was logged, and the loop slept 60 seconds before resuming
(main.py lines 360-362). -/
inductive IterOutcome
  | completed (r : TickOk)
  | backedOff60
deriving DecidableEq, Repr

/-- One iteration of the `while True` loop: the whole body runs inside
`try`, and `except Exception` turns any raised error into the fixed
60-second back-off. -/
def send_daily_message_iter (env : TickEnv) : IterOutcome :=
  match send_daily_message_body env with
  | .ok r => .completed r
  | .error _ => .backedOff60

/-- The `while True` loop of `send_daily_message`, run over a finite
schedule of tick environments: every environment is processed, whatever
its iteration's outcome. -/
def send_daily_message_loop : List TickEnv → List IterOutcome
  | [] => []
  | env :: rest => send_daily_message_iter env :: send_daily_message_loop rest

/-- Two consecutive ticks with the same `today`, the second reading the
state the first one left persisted, projected to the final intervals. -/
def twoTicksIntervals (today : Int) (s : RawState) : Except PyErr (List Int) :=
  match send_daily_message_body ⟨today, .ok s, false, false⟩ with
  | .error e => .error e
  | .ok r1 =>
    (send_daily_message_body ⟨today, .ok r1.final, false, false⟩).map
      (fun r2 => r2.final.intervals)

/-! ### Theorems -/

/-- C3.  The claim says `load` never fails on any file content.  The code
recovers from a missing file and from undecodable content by persisting
and returning the default document, but content that is valid JSON
without being an object (for example the file text `[]`) passes
`json.loads` and then makes the key-filling assignment
`data['intervals'] = []` raise an uncaught `TypeError`: `read_data` can
fail, contradicting the stated contract. -/
theorem c3_read_data_can_fail :
    read_data (.parsed (.arr [])) = .error .typeError ∧
    read_data .missing = .ok ⟨defaultData, [defaultData]⟩ ∧
    read_data .invalid = .ok ⟨defaultData, [defaultData]⟩ :=
  ⟨rfl, rfl, rfl⟩

/-- C2 counterexample.  The claim says the set-target command succeeds
only for dates strictly in the future.  With today = 100, the input date
100 (today itself, not strictly future) is accepted: the handler persists
the new target and replies with the confirmation. -/
theorem c2_counterexample :
    set_date 100 (.date 100) ⟨[], none, none⟩ =
      ([⟨[], none, some (RawDate.valid 100)⟩], .countdownSet 100) ∧
    ¬ (100 : Int) > 100 := by
  constructor
  · rfl
  · decide

/-- C2 (amended).  The handler rejects exactly the strictly past dates:
a date before today is refused with the "must be in the future" reply and
nothing is persisted; a date equal to today or later is accepted,
persisting the new target with `last_event_date` reset to null; malformed
input is refused with the format-error reply and nothing is persisted. -/
theorem c2_reject_only_past (today d : Int) (data : RawState) :
    (d < today → set_date today (.date d) data = ([], .mustBeFuture)) ∧
    (¬ d < today → set_date today (.date d) data =
      ([{ data with target_date := some (RawDate.valid d),
                    last_event_date := none }], .countdownSet d)) ∧
    set_date today .invalid data = ([], .invalidFormat) := by
  refine ⟨fun h => ?_, fun h => ?_, rfl⟩
  · simp [set_date, h]
  · simp [set_date, h]

/-- Witness for C2: with today = 5, the past date 3 is rejected without a
write and the future date 7 is accepted with the reset of
`last_event_date`. -/
theorem c2_witness :
    set_date 5 (.date 3) ⟨[], none, none⟩ = ([], .mustBeFuture) ∧
    set_date 5 (.date 7) ⟨[], none, none⟩ =
      ([⟨[], none, some (RawDate.valid 7)⟩], .countdownSet 7) :=
  ⟨(c2_reject_only_past 5 3 ⟨[], none, none⟩).1 (by decide),
   (c2_reject_only_past 5 7 ⟨[], none, none⟩).2.1 (by decide)⟩

/-- C8.  Clearing the target with the input "none" persists exactly one
document, in which both `target_date` and `last_event_date` are null and
`intervals` is unchanged; re-setting a target on that document and
triggering later leaves `intervals` untouched (the trigger is a first
occurrence: no interval back to the pre-clear marker is computed). -/
theorem c8_clear_resets_last_event (today d t2 : Int) (data : RawState)
    (hd : ¬ d < today) :
    (set_date today .none_ data).1 =
      [{ data with target_date := none, last_event_date := none }] ∧
    (set_date today (.date d)
        { data with target_date := none, last_event_date := none }).1 =
      [{ data with target_date := some (RawDate.valid d),
                   last_event_date := none }] ∧
    (send_daily_message_body
        ⟨t2, .ok { data with target_date := some (RawDate.valid d),
                             last_event_date := none }, false, false⟩).map
      (fun r => r.final.intervals) = .ok data.intervals := by
  refine ⟨rfl, by simp [set_date, hd], ?_⟩
  by_cases ht : d = t2 <;>
    simp [send_daily_message_body, strptime_date, ht, Except.map]

/-- Witness for C8 at a concrete state: clear with today = 10, re-set the
target to 20, trigger at 20; the recorded intervals stay `[3]`. -/
theorem c8_witness :
    (set_date 10 .none_ ⟨[3], some (RawDate.valid 1), some (RawDate.valid 10)⟩).1 =
      [⟨[3], none, none⟩] ∧
    (set_date 10 (.date 20) ⟨[3], none, none⟩).1 =
      [⟨[3], none, some (RawDate.valid 20)⟩] ∧
    (send_daily_message_body
        ⟨20, .ok ⟨[3], none, some (RawDate.valid 20)⟩, false, false⟩).map
      (fun r => r.final.intervals) = .ok [3] :=
  c8_clear_resets_last_event 10 20 20
    ⟨[3], some (RawDate.valid 1), some (RawDate.valid 10)⟩ (by decide)

/-- C10.  Every accepted set-target command persists exactly one
document, with the new target and with `last_event_date` reset to null;
consequently a tick that runs afterwards — on the target day or any other
day — never appends an interval measured from a `last_event_date`
recorded before the set. -/
theorem c10_set_resets_last_event (today d t2 : Int) (data : RawState)
    (hd : ¬ d < today) :
    (set_date today (.date d) data).1 =
      [{ data with target_date := some (RawDate.valid d),
                   last_event_date := none }] ∧
    (set_date today (.date d) data).2 = .countdownSet d ∧
    (send_daily_message_body
        ⟨t2, .ok { data with target_date := some (RawDate.valid d),
                             last_event_date := none }, false, false⟩).map
      (fun r => r.final.intervals) = .ok data.intervals := by
  refine ⟨by simp [set_date, hd], by simp [set_date, hd], ?_⟩
  by_cases ht : d = t2 <;>
    simp [send_daily_message_body, strptime_date, ht, Except.map]

/-- Witness for C10: the state had `last_event_date` = day 2 and
intervals `[4]`; setting the target to day 9 (today = 7) nulls
`last_event_date`, and the trigger at day 9 appends nothing. -/
theorem c10_witness :
    (set_date 7 (.date 9) ⟨[4], some (RawDate.valid 2), none⟩).1 =
      [⟨[4], none, some (RawDate.valid 9)⟩] ∧
    (set_date 7 (.date 9) ⟨[4], some (RawDate.valid 2), none⟩).2 =
      .countdownSet 9 ∧
    (send_daily_message_body
        ⟨9, .ok ⟨[4], none, some (RawDate.valid 9)⟩, false, false⟩).map
      (fun r => r.final.intervals) = .ok [4] :=
  c10_set_resets_last_event 7 9 9 ⟨[4], some (RawDate.valid 2), none⟩ (by decide)

/-- C1 counterexample.  The claim says the single persisted update that
appends an interval or sets `last_event_date` also clears `target_date`,
so that no persisted document holds both a resolved target and event
fields that already reflect it.  On the state with `intervals = []`,
`last_event_date` = day 0 and `target_date` = day 15, the tick at day 15
persists two documents, and the first one — which already appended the
interval 15 and moved `last_event_date` to day 15 — still carries the
resolved `target_date` = day 15. -/
theorem c1_counterexample :
    send_daily_message_body
      ⟨15, .ok ⟨[], some (RawDate.valid 0), some (RawDate.valid 15)⟩, false, false⟩ =
      .ok ⟨[⟨[15], some (RawDate.valid 15), some (RawDate.valid 15)⟩,
            ⟨[15], some (RawDate.valid 15), none⟩],
           ⟨[15], some (RawDate.valid 15), none⟩, none, true⟩ ∧
    (⟨[15], some (RawDate.valid 15), some (RawDate.valid 15)⟩ : RawState).target_date
      ≠ none := by
  exact ⟨rfl, by decide⟩

/-- C1 (amended).  Every Triggered tick (target date equal to today, no
injected fault) ends with a final persisted document whose `target_date`
is null and whose `last_event_date` is today, and this final document is
the last write of the tick, so the resolved target never outlives the
tick; but the event-recording write and the target-clearing write are two
separate persisted updates, and the intermediate document still carries
the resolved target (see the counterexample). -/
theorem c1_final_write_clears_target (iv : List Int) (le : Option Int) (today : Int) :
    (send_daily_message_body
        ⟨today, .ok ⟨iv, le.map RawDate.valid, some (RawDate.valid today)⟩,
         false, false⟩).map
      (fun r => (r.final.target_date, r.final.last_event_date, r.writes.getLast?)) =
    .ok (none, some (RawDate.valid today),
      some ⟨(match le with
             | none => iv
             | some x => if x = today then iv else iv ++ [today - x]),
            some (RawDate.valid today), none⟩) := by
  rcases le with _ | x
  · simp [send_daily_message_body, strptime_date, Except.map]
  · by_cases hx : x = today <;>
      simp [send_daily_message_body, strptime_date, hx, Except.map]

/-- C4.  A Triggered tick on a state whose `last_event_date` is null or
strictly earlier than today: with a null `last_event_date` the intervals
are unchanged, with an earlier one exactly the entry `today - last_event`
is appended; in both cases the final state has `last_event_date` = today
and `target_date` = null. -/
theorem c4_triggered_tick (iv : List Int) (le : Option Int) (today : Int)
    (hle : ∀ x, le = some x → x < today) :
    (send_daily_message_body
        ⟨today, .ok ⟨iv, le.map RawDate.valid, some (RawDate.valid today)⟩,
         false, false⟩).map
      (fun r => (r.final.intervals, r.final.last_event_date, r.final.target_date)) =
    .ok ((match le with | none => iv | some x => iv ++ [today - x]),
         some (RawDate.valid today), none) := by
  rcases le with _ | x
  · simp [send_daily_message_body, strptime_date, Except.map]
  · have hlt := hle x rfl
    have hx : x ≠ today := by omega
    simp [send_daily_message_body, strptime_date, hx, Except.map]

/-- Witness for C4, the spec's own scenario: target = today = day 15,
`last_event_date` = day 0 (15 days earlier): the tick appends the single
entry 15 and ends with `last_event_date` = day 15 and no target. -/
theorem c4_witness :
    (send_daily_message_body
        ⟨15, .ok ⟨[], some (RawDate.valid 0), some (RawDate.valid 15)⟩,
         false, false⟩).map
      (fun r => (r.final.intervals, r.final.last_event_date, r.final.target_date)) =
    .ok ([15], some (RawDate.valid 15), none) := by
  have h := c4_triggered_tick [] (some 0) 15
    (fun x hx => by injection hx with h0; omega)
  simpa using h

/-- C7.  A Triggered tick whose `last_event_date` already equals today
appends nothing to the intervals; and running the tick twice with the
same `today` — the second tick reading what the first persisted — leaves
the interval list at its old length or at most one longer, never two
longer. -/
theorem c7_no_double_append (iv : List Int) (le tg : Option Int) (today : Int) :
    (le = some today ∧ tg = some today →
      (send_daily_message_body
          ⟨today, .ok ⟨iv, le.map RawDate.valid, tg.map RawDate.valid⟩,
           false, false⟩).map
        (fun r => r.final.intervals) = .ok iv) ∧
    ((twoTicksIntervals today ⟨iv, le.map RawDate.valid, tg.map RawDate.valid⟩).map
        List.length = .ok iv.length ∨
     (twoTicksIntervals today ⟨iv, le.map RawDate.valid, tg.map RawDate.valid⟩).map
        List.length = .ok (iv.length + 1)) := by
  constructor
  · rintro ⟨rfl, rfl⟩
    simp [send_daily_message_body, strptime_date, Except.map]
  · rcases tg with _ | t
    · left
      simp [twoTicksIntervals, send_daily_message_body, Except.map]
    · by_cases ht : t = today
      · rcases le with _ | x
        · left
          simp [twoTicksIntervals, send_daily_message_body, strptime_date, ht,
            Except.map]
        · by_cases hx : x = today
          · left
            simp [twoTicksIntervals, send_daily_message_body, strptime_date, ht,
              hx, Except.map]
          · right
            simp [twoTicksIntervals, send_daily_message_body, strptime_date, ht,
              hx, Except.map]
      · left
        simp [twoTicksIntervals, send_daily_message_body, strptime_date, ht,
          Except.map]

/-- Witness for C7: a repeat Triggered tick on day 5 with
`last_event_date` already day 5 appends nothing, and two same-day ticks
on that state leave the interval list length at 0 or 1. -/
theorem c7_witness :
    (send_daily_message_body
        ⟨5, .ok ⟨[], some (RawDate.valid 5), some (RawDate.valid 5)⟩,
         false, false⟩).map
      (fun r => r.final.intervals) = .ok [] ∧
    ((twoTicksIntervals 5 ⟨[], some (RawDate.valid 5), some (RawDate.valid 5)⟩).map
        List.length = .ok ([] : List Int).length ∨
     (twoTicksIntervals 5 ⟨[], some (RawDate.valid 5), some (RawDate.valid 5)⟩).map
        List.length = .ok (([] : List Int).length + 1)) := by
  have h := c7_no_double_append [] (some 5) (some 5) 5
  exact ⟨h.1 ⟨rfl, rfl⟩, h.2⟩

/-- C9 counterexample.  The claim says every exception raised inside a
tick — delivery errors included — is caught at the top of the loop body
and followed by the fixed back-off.  A failing `bot.send_message` in the
Idle branch is instead caught by the inner handler: the iteration
completes normally (`delivered = false`, message logged) and no back-off
happens. -/
theorem c9_counterexample :
    send_daily_message_iter ⟨0, .ok ⟨[], none, none⟩, false, true⟩ =
      .completed ⟨[], ⟨[], none, none⟩, some (.statistical []), false⟩ ∧
    send_daily_message_iter ⟨0, .ok ⟨[], none, none⟩, false, true⟩ ≠
      .backedOff60 := by
  exact ⟨rfl, by decide⟩

/-- C9 (amended).  An exception that propagates out of the tick body
(storage, parsing or write failures) is caught by the handler at the top
of the loop body and turns the iteration into the fixed 60-second
back-off; a tick whose body completes — including one whose message send
failed and was caught by the inner handler — completes its iteration
without back-off; in either case the loop processes every scheduled tick,
so a single failed tick never terminates the scheduler. -/
theorem c9_loop_survives (envs : List TickEnv) (env fenv : TickEnv)
    (e : PyErr) (r : TickOk)
    (he : send_daily_message_body env = .error e)
    (hr : send_daily_message_body fenv = .ok r) :
    (send_daily_message_loop envs).length = envs.length ∧
    send_daily_message_iter env = .backedOff60 ∧
    send_daily_message_iter fenv = .completed r := by
  refine ⟨?_, ?_, ?_⟩
  · induction envs with
    | nil => rfl
    | cons a rest ih => simp [send_daily_message_loop, ih]
  · simp [send_daily_message_iter, he]
  · simp [send_daily_message_iter, hr]

/-- Witness for C9: a tick whose read raised `TypeError` backs off for 60
seconds, the loop still processes its whole schedule, and a healthy Idle
tick completes. -/
theorem c9_witness :
    (send_daily_message_loop [⟨0, .error .typeError, false, false⟩]).length = 1 ∧
    send_daily_message_iter ⟨0, .error .typeError, false, false⟩ = .backedOff60 ∧
    send_daily_message_iter ⟨1, .ok ⟨[], none, none⟩, false, false⟩ =
      .completed ⟨[], ⟨[], none, none⟩, some (.statistical []), true⟩ :=
  c9_loop_survives [⟨0, .error .typeError, false, false⟩]
    ⟨0, .error .typeError, false, false⟩ ⟨1, .ok ⟨[], none, none⟩, false, false⟩
    .typeError ⟨[], ⟨[], none, none⟩, some (.statistical []), true⟩ rfl rfl

/-- The mean of a list of non-negative integers is non-negative. -/
lemma n_days_nonneg (intervals : List Int) (hpos : ∀ x ∈ intervals, 0 ≤ x) :
    0 ≤ n_days intervals := by
  unfold n_days
  apply div_nonneg
  · exact_mod_cast List.sum_nonneg hpos
  · positivity

/-- The rate parameter computed from non-negative intervals is
non-negative (it is `1 / mean` or the guarded `0`). -/
lemma lambda_param_nonneg (intervals : List Int)
    (hpos : ∀ x ∈ intervals, 0 ≤ x) :
    0 ≤ lambda_param intervals := by
  unfold lambda_param
  by_cases h : n_days intervals ≠ 0
  · simpa [h] using one_div_nonneg.mpr (n_days_nonneg intervals hpos)
  · simp [h]

/-- With a non-negative rate, `1 - exp(-lam * d)` is monotone in the day
horizon `d`. -/
lemma poisson_prob_mono {lam a b : ℝ} (hlam : 0 ≤ lam) (hab : a ≤ b) :
    poisson_prob_at_least_one lam a ≤ poisson_prob_at_least_one lam b := by
  unfold poisson_prob_at_least_one
  have h1 : lam * a ≤ lam * b := mul_le_mul_of_nonneg_left hab hlam
  have h2 : Real.exp (-lam * b) ≤ Real.exp (-lam * a) := by
    apply Real.exp_le_exp.mpr
    nlinarith
  linarith

/-- C5.  On interval sequences from the data model (non-negative
entries), the statistical message computed by the code coincides with the
reference definition written from the specification: the fixed no-data
message on the empty sequence, otherwise expected time `floor(mean)` and
the four probabilities `(1 - e^(-rate*d)) * 100`, with the rate degrading
to `0` (all probabilities `0`) when the mean is `0`, with no failure. -/
theorem c5_forecast_matches_spec (intervals : List Int)
    (hpos : ∀ x ∈ intervals, 0 ≤ x) :
    statMessage intervals = specForecast intervals ∧
    statMessage [] = .noData ∧
    (intervals ≠ [] → n_days intervals = 0 →
      statMessage intervals = .forecast ⟨0, 0, 0, 0, 0⟩) := by
  refine ⟨?_, by simp [statMessage], ?_⟩
  · by_cases hne : intervals = []
    · simp [statMessage, specForecast, hne]
    · have h0 : 0 ≤ n_days intervals := n_days_nonneg intervals hpos
      have hint : ∀ q : ℚ, 0 ≤ q → pyInt q = ⌊q⌋ := fun q hq => by
        simp only [pyInt, if_pos hq]
      simp [statMessage, specForecast, hne, n_days, lambda_param,
        poisson_prob_at_least_one, ite_not]
      exact hint _ (by simpa [n_days] using h0)
  · intro hne h0
    have hl : lambda_param intervals = 0 := by simp [lambda_param, h0]
    simp [statMessage, hne, hl, pyInt, h0, poisson_prob_at_least_one,
      Real.exp_zero]

/-- Witness for C5 at the spec's scenario intervals `[10, 20, 30]`. -/
theorem c5_witness :
    statMessage [10, 20, 30] = specForecast [10, 20, 30] :=
  (c5_forecast_matches_spec [10, 20, 30] (by decide)).1

/-- C6.  On a non-empty interval sequence from the data model, the
statistical message carries the four probabilities for the horizons
1, 7, 30 and 365 days, and they are monotonically non-decreasing in the
horizon. -/
theorem c6_probabilities_monotone (intervals : List Int) (hne : intervals ≠ [])
    (hpos : ∀ x ∈ intervals, 0 ≤ x) :
    statMessage intervals = .forecast ⟨pyInt (n_days intervals),
        poisson_prob_at_least_one (lambda_param intervals) 1 * 100,
        poisson_prob_at_least_one (lambda_param intervals) 7 * 100,
        poisson_prob_at_least_one (lambda_param intervals) 30 * 100,
        poisson_prob_at_least_one (lambda_param intervals) 365 * 100⟩ ∧
    poisson_prob_at_least_one (lambda_param intervals) 1 * 100 ≤
      poisson_prob_at_least_one (lambda_param intervals) 7 * 100 ∧
    poisson_prob_at_least_one (lambda_param intervals) 7 * 100 ≤
      poisson_prob_at_least_one (lambda_param intervals) 30 * 100 ∧
    poisson_prob_at_least_one (lambda_param intervals) 30 * 100 ≤
      poisson_prob_at_least_one (lambda_param intervals) 365 * 100 := by
  have hlam : (0 : ℝ) ≤ (lambda_param intervals : ℝ) := by
    exact_mod_cast lambda_param_nonneg intervals hpos
  refine ⟨by simp [statMessage, hne], ?_, ?_, ?_⟩ <;>
    exact mul_le_mul_of_nonneg_right (poisson_prob_mono hlam (by norm_num))
      (by norm_num)

/-- Witness for C6 at the spec's scenario intervals `[10, 20, 30]`. -/
theorem c6_witness :
    poisson_prob_at_least_one (lambda_param [10, 20, 30]) 1 * 100 ≤
      poisson_prob_at_least_one (lambda_param [10, 20, 30]) 7 * 100 :=
  (c6_probabilities_monotone [10, 20, 30] (by decide) (by decide)).2.1
